import Mathlib

set_option maxHeartbeats 1000000

/-! Shallow embedding of the Lumenpulse on-chain contracts.

The contributor registry (apps/onchain/contracts/contributor-registry/src/lib.rs)
is a keyed store of contributor profiles gated by a single admin principal.
Ledger storage is modelled as an explicit state record; `require_auth` is
modelled by an environment predicate `auth : Address → Bool` telling which
principals can supply an authorization proof — a failed `require_auth`
aborts the invocation with a host trap, modelled as the `Outcome.trap`
result with the state unchanged (the host discards the invocation). -/

/-- Principal addresses, abstracted as natural numbers. -/
abbrev Address := Nat

/-- The contributor-registry error variants, as used in lib.rs
(the enum lives in the crate's errors.rs; every variant below is the one
returned at the corresponding place of lib.rs). -/
inductive ContributorError where
  | AlreadyInitialized
  | NotInitialized
  | Unauthorized
  | ContributorAlreadyExists
  | ContributorNotFound
  | InvalidGitHubHandle
  deriving DecidableEq, Repr

/-- Result of one contract invocation: success with a value, a typed
contract error, or a host trap raised by a failed `require_auth`. -/
inductive Outcome (α : Type) where
  | ok : α → Outcome α
  | err : ContributorError → Outcome α
  | trap : Outcome α
  deriving DecidableEq, Repr

/-- Whether an outcome is a typed contract error. -/
def Outcome.isErr {α : Type} : Outcome α → Bool
  | .err _ => true
  | _ => false

/-- ContributorData from contributor-registry/src/storage.rs. -/
structure ContributorData where
  address : Address
  github_handle : String
  reputation_score : Nat
  registered_timestamp : Nat
  deriving DecidableEq, Repr

/-- The registry's ledger state: the instance-scoped admin slot and the
persistent map of contributor records keyed by address (storage.rs DataKey). -/
structure RegState where
  admin : Option Address
  contributors : Address → Option ContributorData

/-- Write a contributor record under its address key
(env.storage().persistent().set on DataKey::Contributor). -/
def RegState.setContributor (s : RegState) (a : Address) (c : ContributorData) : RegState :=
  { s with contributors := fun x => if x = a then some c else s.contributors x }

/-- The fresh ledger state of a newly deployed registry: nothing stored. -/
def emptyReg : RegState :=
  { admin := none, contributors := fun _ => none }

/-- lib.rs `initialize`: fail AlreadyInitialized if the admin slot is set,
require auth from `a`, then store `a` in the admin slot. -/
def init_registry (auth : Address → Bool) (s : RegState) (a : Address) :
    Outcome Unit × RegState :=
  if (s.admin).isSome then (.err .AlreadyInitialized, s)
  else if auth a then (.ok (), { s with admin := some a })
  else (.trap, s)

/-- lib.rs `register_contributor`: fail NotInitialized if no admin is stored,
require auth from `address`, reject an empty handle with InvalidGitHubHandle,
reject an existing record with ContributorAlreadyExists, then store a fresh
record with reputation 0 and the current ledger timestamp `ts`. -/
def register_contributor (auth : Address → Bool) (ts : Nat) (s : RegState)
    (address : Address) (github_handle : String) : Outcome Unit × RegState :=
  if (s.admin).isSome = false then (.err .NotInitialized, s)
  else if auth address = false then (.trap, s)
  else if github_handle.isEmpty then (.err .InvalidGitHubHandle, s)
  else if (s.contributors address).isSome then (.err .ContributorAlreadyExists, s)
  else
    (.ok (), s.setContributor address
      { address := address
        github_handle := github_handle
        reputation_score := 0
        registered_timestamp := ts })

/-- lib.rs `update_reputation`: load the stored admin (NotInitialized if
absent), reject a caller-supplied admin different from the stored one with
Unauthorized before requesting the authorization proof, require auth from
the admin, load the target record (ContributorNotFound if absent), then
overwrite its reputation_score with `new_score` and store it back. -/
def update_reputation (auth : Address → Bool) (s : RegState)
    (adm caddr : Address) (new_score : Nat) : Outcome Unit × RegState :=
  match s.admin with
  | none => (.err .NotInitialized, s)
  | some stored =>
    if adm ≠ stored then (.err .Unauthorized, s)
    else if auth adm = false then (.trap, s)
    else
      match s.contributors caddr with
      | none => (.err .ContributorNotFound, s)
      | some c =>
        (.ok (), s.setContributor caddr { c with reputation_score := new_score })

/-- lib.rs `get_contributor`: pure read of the record under `address`,
ContributorNotFound if absent. -/
def get_contributor (s : RegState) (address : Address) : Outcome ContributorData :=
  match s.contributors address with
  | some c => .ok c
  | none => .err .ContributorNotFound

/-- lib.rs `get_admin`: pure read of the admin slot, NotInitialized if unset. -/
def get_admin (s : RegState) : Outcome Address :=
  match s.admin with
  | some a => .ok a
  | none => .err .NotInitialized

/-- VestingData from vesting-wallet/src/storage.rs (i128 quantities as Int). -/
structure VestingData where
  beneficiary : Address
  total_amount : Int
  start_time : Nat
  duration : Nat
  claimed_amount : Int
  deriving DecidableEq, Repr

/-- VestingError from vesting-wallet/src/errors.rs. -/
inductive VestingError where
  | NotInitialized
  | AlreadyInitialized
  | Unauthorized
  | VestingNotFound
  | InvalidAmount
  | InvalidDuration
  | InvalidStartTime
  | NothingToClaim
  | InsufficientBalance
  deriving DecidableEq, Repr

/-- Modelled from the spec: the vesting wallet's claim orchestration
(its lib.rs is not part of the provided source; only storage.rs and
errors.rs are). Canonical linear vesting of section 4.3: 0 before
`start_time`, the full `total_amount` once `duration` has elapsed, else
`total_amount * elapsed / duration` floored. -/
def vestedAmount (v : VestingData) (now : Nat) : Int :=
  if now < v.start_time then 0
  else if v.duration ≤ now - v.start_time then v.total_amount
  else v.total_amount * ((now - v.start_time : Nat) : Int) / (v.duration : Int)

/-- Modelled from the spec: `claim(beneficiary)` on an existing record —
claimable = vested − claimed_amount, fail NothingToClaim if claimable ≤ 0,
fail InsufficientBalance if the contract balance cannot cover it, else
transfer claimable and increment claimed_amount by it. -/
def claimVesting (now : Nat) (balance : Int) (v : VestingData) :
    Except VestingError (Int × VestingData) :=
  let claimable := vestedAmount v now - v.claimed_amount
  if claimable ≤ 0 then .error .NothingToClaim
  else if balance < claimable then .error .InsufficientBalance
  else .ok (claimable, { v with claimed_amount := v.claimed_amount + claimable })

/-- The vesting record after one `claim` invocation: updated on success,
unchanged when the invocation fails (the host discards a failed call). -/
def claimStep (now : Nat) (balance : Int) (v : VestingData) : VestingData :=
  match claimVesting now balance v with
  | .ok r => r.2
  | .error _ => v

example : (init_registry (fun _ => true) emptyReg 0).1 = .ok () := by decide
example :
    (register_contributor (fun _ => true) 7
      (init_registry (fun _ => true) emptyReg 0).2 1 "alice").1 = .ok () := by decide
example :
    get_contributor
      (register_contributor (fun _ => true) 7
        (init_registry (fun _ => true) emptyReg 0).2 1 "alice").2 1 =
    .ok { address := 1, github_handle := "alice", reputation_score := 0,
          registered_timestamp := 7 } := by decide
example :
    (register_contributor (fun _ => true) 9
      (register_contributor (fun _ => true) 7
        (init_registry (fun _ => true) emptyReg 0).2 1 "alice").2 1 "").1 =
    .err .InvalidGitHubHandle := by decide

/-! Concrete fixtures used by witnesses. -/

/-- Environment in which every principal supplies authorization proofs. -/
def authAll : Address → Bool := fun _ => true

/-- Environment in which no principal supplies an authorization proof. -/
def authNone : Address → Bool := fun _ => false

/-- An already-initialized registry whose admin is principal 5, no records. -/
def sInit5 : RegState := { admin := some 5, contributors := fun _ => none }

/-- Registry initialized with admin 0. -/
def sReg : RegState := (init_registry authAll emptyReg 0).2

/-- Registry with admin 0 and contributor 1 registered as "alice" at time 7. -/
def sAlice : RegState := (register_contributor authAll 7 sReg 1 "alice").2

/-- The record created for contributor 1 in `sAlice`. -/
def cAlice : ContributorData :=
  { address := 1, github_handle := "alice", reputation_score := 0,
    registered_timestamp := 7 }

/-! Helper lemmas about the registry operations. -/

/-- Inversion of a successful `register_contributor`: all four guards passed
and the new state stores exactly the fresh record under the address key. -/
lemma register_succ (auth : Address → Bool) (ts : Nat) (s s' : RegState)
    (p : Address) (h : String)
    (hs : register_contributor auth ts s p h = (.ok (), s')) :
    (s.admin).isSome = true ∧ auth p = true ∧ h.isEmpty = false ∧
    s.contributors p = none ∧
    s' = s.setContributor p
      { address := p, github_handle := h, reputation_score := 0,
        registered_timestamp := ts } := by
  unfold register_contributor at hs
  split_ifs at hs with g1 g2 g3 g4
  · simp at hs
  · simp at hs
  · simp at hs
  · simp at hs
  · refine ⟨Option.ne_none_iff_isSome.mp (by simpa using g1), by simpa using g2,
      by simpa using g3, Option.not_isSome_iff_eq_none.mp (by simpa using g4), ?_⟩
    exact (Prod.mk.injEq _ _ _ _).mp hs |>.2.symm

/-- Writing the same record twice under the same key is the same as writing
it once. -/
lemma setContributor_idem (s : RegState) (a : Address) (c : ContributorData) :
    (s.setContributor a c).setContributor a c = s.setContributor a c := by
  unfold RegState.setContributor
  congr 1
  funext x
  by_cases hx : x = a <;> simp [hx]

/-- C1: initialize is one-shot — on an uninitialized registry with an
authorization proof from `a` it stores `a` as administrator; on any registry
whose admin slot is set it returns AlreadyInitialized leaving the state
unchanged; in particular after initialize(A) succeeds a later initialize(B)
fails AlreadyInitialized and get_admin still returns A. -/
theorem c1_init_one_shot (auth auth2 : Address → Bool) (s s2 : RegState)
    (a b c : Address) (hadm : s.admin = none) (hauth : auth a = true)
    (h2 : (s2.admin).isSome = true) :
    init_registry auth s a = (.ok (), { s with admin := some a }) ∧
    init_registry auth2 s2 c = (.err .AlreadyInitialized, s2) ∧
    init_registry auth2 (init_registry auth s a).2 b =
      (.err .AlreadyInitialized, (init_registry auth s a).2) ∧
    get_admin (init_registry auth s a).2 = .ok a := by
  refine ⟨?_, ?_, ?_, ?_⟩
  · simp [init_registry, hadm, hauth]
  · simp [init_registry, h2]
  · simp [init_registry, hadm, hauth]
  · simp [init_registry, hadm, hauth, get_admin]

/-- Witness for C1 at a concrete input: a fresh registry initialized by
principal 0, with 1 attempting re-initialization. -/
theorem c1_witness :
    init_registry authAll emptyReg 0 = (.ok (), { emptyReg with admin := some 0 }) ∧
    init_registry authAll sInit5 2 = (.err .AlreadyInitialized, sInit5) ∧
    init_registry authAll (init_registry authAll emptyReg 0).2 1 =
      (.err .AlreadyInitialized, (init_registry authAll emptyReg 0).2) ∧
    get_admin (init_registry authAll emptyReg 0).2 = .ok 0 :=
  c1_init_one_shot authAll authAll emptyReg sInit5 0 1 2 rfl rfl rfl

/-- C3: with the registry initialized to some admin A, update_reputation
called with any other admin argument fails Unauthorized for every
contributor address and score — and since this holds for every `auth`
environment (including one providing no proof at all), the identity
comparison is performed before the authorization proof is requested. -/
theorem c3_update_unauthorized (auth : Address → Bool) (s : RegState)
    (A adm caddr : Address) (n : Nat)
    (hinit : s.admin = some A) (hne : adm ≠ A) :
    update_reputation auth s adm caddr n = (.err .Unauthorized, s) := by
  simp [update_reputation, hinit, hne]

/-- Witness for C3: a non-admin caller in an environment with no
authorization proofs at all is still rejected with Unauthorized. -/
theorem c3_witness :
    update_reputation authNone sInit5 1 2 50 = (.err .Unauthorized, sInit5) :=
  c3_update_unauthorized authNone sInit5 5 1 2 50 rfl (by decide)

/-- C7: on an initialized registry, register_contributor with an empty
GitHub handle fails InvalidGitHubHandle for every address supplying its
authorization proof, and the state is returned unchanged (no record
created). -/
theorem c7_empty_handle (auth : Address → Bool) (ts : Nat) (s : RegState)
    (X : Address) (hinit : (s.admin).isSome = true) (hauth : auth X = true) :
    register_contributor auth ts s X "" = (.err .InvalidGitHubHandle, s) := by
  simp [register_contributor, hinit, hauth, String.isEmpty]

/-- Witness for C7 at a concrete input. -/
theorem c7_witness :
    register_contributor authAll 3 sInit5 2 "" = (.err .InvalidGitHubHandle, sInit5) :=
  c7_empty_handle authAll 3 sInit5 2 rfl rfl

/-- C8: get_contributor on an unregistered address returns
ContributorNotFound and get_admin on an uninitialized registry returns
NotInitialized; both are total Lean functions of the state alone (pure
reads taking no authorization environment and returning no new state). -/
theorem c8_reads_fail_typed (s : RegState) (X : Address) :
    (s.contributors X = none → get_contributor s X = .err .ContributorNotFound) ∧
    (s.admin = none → get_admin s = .err .NotInitialized) := by
  constructor <;> intro h <;> simp [get_contributor, get_admin, h]

/-- Witness for C8 on the empty registry. -/
theorem c8_witness :
    get_contributor emptyReg 3 = .err .ContributorNotFound ∧
    get_admin emptyReg = .err .NotInitialized :=
  ⟨(c8_reads_fail_typed emptyReg 3).1 rfl, (c8_reads_fail_typed emptyReg 3).2 rfl⟩

/-- Counterexample to C2 as stated: after contributor 1 successfully
registers with handle "alice", a second registration attempt for 1 with the
empty handle fails InvalidGitHubHandle — not ContributorAlreadyExists — because
the handle check precedes the existence check in register_contributor. -/
theorem c2_counterexample :
    (register_contributor authAll 7 sReg 1 "alice").1 = .ok () ∧
    (register_contributor authAll 9 sAlice 1 "").1 = .err .InvalidGitHubHandle ∧
    (register_contributor authAll 9 sAlice 1 "").1 ≠ .err .ContributorAlreadyExists := by
  refine ⟨by decide, by decide, by decide⟩

/-- C2 (amended): after a successful registration of p, no later attempt to
register p ever succeeds, and a second attempt carrying a non-empty handle
and p's authorization proof fails with ContributorAlreadyExists (while an
empty handle fails earlier with InvalidGitHubHandle). -/
theorem c2_register_at_most_once (auth auth3 : Address → Bool) (ts ts2 ts3 : Nat)
    (s s' : RegState) (p : Address) (h h2 h3 : String)
    (hsucc : register_contributor auth ts s p h = (.ok (), s'))
    (hauth : auth p = true) (hne : h2.isEmpty = false) :
    register_contributor auth ts2 s' p h2 = (.err .ContributorAlreadyExists, s') ∧
    (register_contributor auth3 ts3 s' p h3).1 ≠ .ok () := by
  obtain ⟨hinit, -, -, -, hs⟩ := register_succ auth ts s s' p h hsucc
  have hadm : (s'.admin).isSome = true := by
    rw [hs]; simpa [RegState.setContributor] using hinit
  have hcon : (s'.contributors p).isSome = true := by
    rw [hs]; simp [RegState.setContributor]
  constructor
  · simp [register_contributor, hadm, hauth, hne, hcon]
  · simp only [register_contributor, hadm, hcon]
    split_ifs <;> simp

/-- Witness for C2 (amended) at a concrete input: contributor 1 registered
as "alice"; the retry with "bob" fails ContributorAlreadyExists. -/
theorem c2_witness :
    register_contributor authAll 9 sAlice 1 "bob" =
      (.err .ContributorAlreadyExists, sAlice) ∧
    (register_contributor authAll 11 sAlice 1 "carol").1 ≠ .ok () :=
  c2_register_at_most_once authAll authAll 7 9 11 sReg sAlice 1 "alice" "bob" "carol"
    rfl rfl rfl

/-- C4: a successful register_contributor(X, h) at ledger time ts stores
exactly the record with address X, handle h, reputation 0 and timestamp ts,
and get_contributor(X) on the resulting state returns that record. -/
theorem c4_register_creates_record (auth : Address → Bool) (ts : Nat)
    (s s' : RegState) (X : Address) (h : String)
    (hsucc : register_contributor auth ts s X h = (.ok (), s')) :
    s' = s.setContributor X
      { address := X, github_handle := h, reputation_score := 0,
        registered_timestamp := ts } ∧
    get_contributor s' X =
      .ok { address := X, github_handle := h, reputation_score := 0,
            registered_timestamp := ts } := by
  obtain ⟨-, -, -, -, hs⟩ := register_succ auth ts s s' X h hsucc
  refine ⟨hs, ?_⟩
  rw [hs]
  simp [get_contributor, RegState.setContributor]

/-- Witness for C4: registering "alice" then reading her record back. -/
theorem c4_witness :
    sAlice = sReg.setContributor 1 cAlice ∧
    get_contributor sAlice 1 = .ok cAlice :=
  c4_register_creates_record authAll 7 sReg sAlice 1 "alice" rfl

/-- C5: failure atomicity — whenever init_registry, register_contributor or
update_reputation returns a typed error, the returned state is exactly the
input state: no record was created or altered and the admin slot is
unchanged. -/
theorem c5_failure_atomicity (auth : Address → Bool) (ts : Nat) (s : RegState)
    (a X adm caddr : Address) (h : String) (n : Nat) :
    ((init_registry auth s a).1.isErr = true → (init_registry auth s a).2 = s) ∧
    ((register_contributor auth ts s X h).1.isErr = true →
      (register_contributor auth ts s X h).2 = s) ∧
    ((update_reputation auth s adm caddr n).1.isErr = true →
      (update_reputation auth s adm caddr n).2 = s) := by
  refine ⟨?_, ?_, ?_⟩
  · unfold init_registry
    split_ifs <;> simp [Outcome.isErr]
  · unfold register_contributor
    split_ifs <;> simp [Outcome.isErr]
  · unfold update_reputation
    cases hs : s.admin with
    | none => simp
    | some stored =>
      rcases hc : s.contributors caddr with _ | c <;>
        by_cases he : adm = stored <;>
        simp [he, hc, Outcome.isErr] <;>
        split_ifs <;>
        simp [Outcome.isErr]

/-- Witness for C5: a failing re-initialization leaves the state untouched. -/
theorem c5_witness :
    (init_registry authAll sInit5 9).1.isErr = true ∧
    (init_registry authAll sInit5 9).2 = sInit5 :=
  ⟨by decide, (c5_failure_atomicity authAll 0 sInit5 9 0 0 0 "x" 0).1 (by decide)⟩

/-- C6: a successful update_reputation overwrites the target record's
reputation_score with new_score — any u64 value is accepted, there is no
bounds check — and leaves address, github_handle and registered_timestamp
unchanged. -/
theorem c6_update_overwrites_score (auth : Address → Bool) (s : RegState)
    (A X : Address) (n : Nat) (c : ContributorData)
    (hadm : s.admin = some A) (hauth : auth A = true)
    (hc : s.contributors X = some c) (_hn : n < 2 ^ 64) :
    update_reputation auth s A X n =
      (.ok (), s.setContributor X { c with reputation_score := n }) ∧
    get_contributor (update_reputation auth s A X n).2 X =
      .ok { address := c.address, github_handle := c.github_handle,
            reputation_score := n,
            registered_timestamp := c.registered_timestamp } := by
  have h1 : update_reputation auth s A X n =
      (.ok (), s.setContributor X { c with reputation_score := n }) := by
    simp [update_reputation, hadm, hauth, hc]
  refine ⟨h1, ?_⟩
  rw [h1]
  simp [get_contributor, RegState.setContributor]

/-- Witness for C6: the admin sets contributor 1's reputation to 50. -/
theorem c6_witness :
    update_reputation authAll sAlice 0 1 50 =
      (.ok (), sAlice.setContributor 1 { cAlice with reputation_score := 50 }) ∧
    get_contributor (update_reputation authAll sAlice 0 1 50).2 1 =
      .ok { address := cAlice.address, github_handle := cAlice.github_handle,
            reputation_score := 50,
            registered_timestamp := cAlice.registered_timestamp } :=
  c6_update_overwrites_score authAll sAlice 0 1 50 cAlice rfl rfl rfl (by decide)

/-- C10: update_reputation is idempotent — on an initialized registry with
stored admin A and an existing contributor X, a second identical call
succeeds and leaves the state exactly as after the first call. -/
theorem c10_update_idempotent (auth : Address → Bool) (s : RegState)
    (A X : Address) (n : Nat) (c : ContributorData)
    (hadm : s.admin = some A) (hauth : auth A = true)
    (hc : s.contributors X = some c) :
    update_reputation auth (update_reputation auth s A X n).2 A X n =
      (.ok (), (update_reputation auth s A X n).2) := by
  have h1 : update_reputation auth s A X n =
      (.ok (), s.setContributor X { c with reputation_score := n }) := by
    simp [update_reputation, hadm, hauth, hc]
  rw [h1]
  have hadm1 : (s.setContributor X { c with reputation_score := n }).admin = some A := by
    simpa [RegState.setContributor] using hadm
  have hc1 : (s.setContributor X { c with reputation_score := n }).contributors X =
      some { c with reputation_score := n } := by
    simp [RegState.setContributor]
  have h2 : update_reputation auth (s.setContributor X { c with reputation_score := n }) A X n =
      (.ok (), (s.setContributor X { c with reputation_score := n }).setContributor X
        { c with reputation_score := n }) := by
    simp [update_reputation, hadm1, hauth, hc1]
  rw [h2, setContributor_idem]

/-- Witness for C10: setting contributor 1's reputation to 50 twice. -/
theorem c10_witness :
    update_reputation authAll (update_reputation authAll sAlice 0 1 50).2 0 1 50 =
      (.ok (), (update_reputation authAll sAlice 0 1 50).2) :=
  c10_update_idempotent authAll sAlice 0 1 50 cAlice rfl rfl rfl

/-! Vesting arithmetic lemmas for C9. -/

/-- The vested amount is never negative when the total is not. -/
lemma vested_nonneg (v : VestingData) (now : Nat) (htot : 0 ≤ v.total_amount) :
    0 ≤ vestedAmount v now := by
  unfold vestedAmount
  split_ifs with h1 h2
  · exact le_refl 0
  · exact htot
  · exact Int.ediv_nonneg (mul_nonneg htot (Int.natCast_nonneg _)) (Int.natCast_nonneg _)

/-- The vested amount never exceeds the total for a positive duration. -/
lemma vested_le_total (v : VestingData) (now : Nat) (hd : 0 < v.duration)
    (htot : 0 ≤ v.total_amount) : vestedAmount v now ≤ v.total_amount := by
  unfold vestedAmount
  split_ifs with h1 h2
  · exact htot
  · exact le_refl _
  · have hlt : (now - v.start_time : Nat) < v.duration := Nat.lt_of_not_le h2
    have hle : ((now - v.start_time : Nat) : Int) ≤ (v.duration : Int) := by
      exact_mod_cast Nat.le_of_lt hlt
    have hdz : (0 : Int) < (v.duration : Int) := by exact_mod_cast hd
    calc v.total_amount * ((now - v.start_time : Nat) : Int) / (v.duration : Int)
        ≤ v.total_amount * (v.duration : Int) / (v.duration : Int) :=
          Int.ediv_le_ediv hdz (mul_le_mul_of_nonneg_left hle htot)
      _ = v.total_amount := Int.mul_ediv_cancel _ (ne_of_gt hdz)

/-- C9: for a vesting record with positive duration satisfying the creation
invariant 0 ≤ claimed_amount ≤ total_amount, one claim invocation — whether
it succeeds or fails — never decreases claimed_amount, keeps it within
[0, total_amount], and leaves total_amount unchanged; hence the invariant
holds in every reachable state and claimed_amount is non-decreasing across
successive claim calls. -/
theorem c9_claimed_bounds (v : VestingData) (now : Nat) (bal : Int)
    (hd : 0 < v.duration) (h0 : 0 ≤ v.claimed_amount)
    (h1 : v.claimed_amount ≤ v.total_amount) :
    v.claimed_amount ≤ (claimStep now bal v).claimed_amount ∧
    0 ≤ (claimStep now bal v).claimed_amount ∧
    (claimStep now bal v).claimed_amount ≤ v.total_amount ∧
    (claimStep now bal v).total_amount = v.total_amount := by
  have htot : 0 ≤ v.total_amount := le_trans h0 h1
  have hv0 := vested_nonneg v now htot
  have hv1 := vested_le_total v now hd htot
  by_cases hcl : vestedAmount v now - v.claimed_amount ≤ 0
  · have he : claimStep now bal v = v := by
      unfold claimStep claimVesting
      simp [hcl]
    rw [he]
    exact ⟨le_refl _, h0, h1, rfl⟩
  · by_cases hbal : bal < vestedAmount v now - v.claimed_amount
    · have he : claimStep now bal v = v := by
        unfold claimStep claimVesting
        simp [hcl, hbal]
      rw [he]
      exact ⟨le_refl _, h0, h1, rfl⟩
    · have he : claimStep now bal v =
          { v with claimed_amount :=
              v.claimed_amount + (vestedAmount v now - v.claimed_amount) } := by
        unfold claimStep claimVesting
        simp [hcl, hbal]
      rw [he]
      refine ⟨?_, ?_, ?_, rfl⟩ <;> simp <;> omega

/-- A concrete linear-vesting record: 100 tokens over 10 time units from
time 10, nothing claimed yet. -/
def vSample : VestingData :=
  { beneficiary := 1, total_amount := 100, start_time := 10, duration := 10,
    claimed_amount := 0 }

/-- Witness for C9: claiming halfway through the sample schedule. -/
theorem c9_witness :
    vSample.claimed_amount ≤ (claimStep 15 1000 vSample).claimed_amount ∧
    0 ≤ (claimStep 15 1000 vSample).claimed_amount ∧
    (claimStep 15 1000 vSample).claimed_amount ≤ vSample.total_amount ∧
    (claimStep 15 1000 vSample).total_amount = vSample.total_amount :=
  c9_claimed_bounds vSample 15 1000 (by decide) (by decide) (by decide)
